import Mathlib

/-!
Verification of the realsense2_camera node
(`src/realsense2_camera/src/realsense_node.cpp`) against its
natural-language specification.

The C++ code is shallowly embedded: pixel buffers become functions
`Nat → Nat` (flat index to raw sample value), floating-point arithmetic
is modelled over `ℚ`, machine-integer truncation (`static_cast<int>`)
becomes truncation toward zero on `ℚ`, and the per-pixel loops become
folds over explicit integer ranges.
-/

namespace RealSense

/-- Truncation toward zero of a rational, modelling C's
`static_cast<int>` applied to a float value. -/
def ftrunc (q : ℚ) : Int := if 0 ≤ q then ⌊q⌋ else ⌈q⌉

/-- Camera intrinsics (`rs2_intrinsics`): resolution, principal point and
focal lengths.  Distortion coefficients are zero for the profiles used by
the node, so the distortion terms of the librealsense formulas vanish. -/
structure Intrinsics where
  width : Int
  height : Int
  ppx : ℚ
  ppy : ℚ
  fx : ℚ
  fy : ℚ
deriving Repr, DecidableEq

/-- A 3-D point in camera space. -/
structure Vec3 where
  x : ℚ
  y : ℚ
  z : ℚ
deriving Repr, DecidableEq

/-- Extrinsics (`rs2_extrinsics`): column-major 3×3 rotation and a
translation vector, exactly as laid out in the librealsense struct. -/
structure Extrinsics where
  r0 : ℚ
  r1 : ℚ
  r2 : ℚ
  r3 : ℚ
  r4 : ℚ
  r5 : ℚ
  r6 : ℚ
  r7 : ℚ
  r8 : ℚ
  t0 : ℚ
  t1 : ℚ
  t2 : ℚ
deriving Repr, DecidableEq

/-- Identity extrinsics (identity rotation, zero translation). -/
def idExtrinsics : Extrinsics := ⟨1, 0, 0, 0, 1, 0, 0, 0, 1, 0, 0, 0⟩

/-- Model of librealsense `rs2_deproject_pixel_to_point` for the
zero-distortion case: map a pixel plus a metric depth to a 3-D point. -/
def rs2_deproject_pixel_to_point (intrin : Intrinsics) (pixel : ℚ × ℚ)
    (depth : ℚ) : Vec3 :=
  let x := (pixel.1 - intrin.ppx) / intrin.fx
  let y := (pixel.2 - intrin.ppy) / intrin.fy
  ⟨depth * x, depth * y, depth⟩

/-- Model of librealsense `rs2_transform_point_to_point`: apply the
column-major rotation and the translation of the extrinsics. -/
def rs2_transform_point_to_point (e : Extrinsics) (p : Vec3) : Vec3 :=
  ⟨e.r0 * p.x + e.r3 * p.y + e.r6 * p.z + e.t0,
   e.r1 * p.x + e.r4 * p.y + e.r7 * p.z + e.t1,
   e.r2 * p.x + e.r5 * p.y + e.r8 * p.z + e.t2⟩

/-- Model of librealsense `rs2_project_point_to_pixel` for the
zero-distortion case: perspective-divide and apply the intrinsics. -/
def rs2_project_point_to_pixel (intrin : Intrinsics) (p : Vec3) : ℚ × ℚ :=
  let x := p.x / p.z
  let y := p.y / p.z
  (x * intrin.fx + intrin.ppx, y * intrin.fy + intrin.ppy)

/-- List of the integers from `a` to `b` inclusive (empty when `b < a`),
modelling a C `for` loop counter. -/
def intRange (a b : Int) : List Int :=
  (List.range (b + 1 - a).toNat).map (fun (i : Nat) => a + (i : Int))

/-! ### Reprojector: `RealSenseNode::alignFrame` -/

/-- Bounding rectangle `(x0, y0, x1, y1)` on the target image for one
source pixel `(fx, fy)` carrying metric depth `depth`: deproject the
top-left corner `(fx - 0.5, fy - 0.5)` and the bottom-right corner
`(fx + 0.5, fy + 0.5)`, transform through the extrinsics, project into
the target camera and round via `static_cast<int>(v + 0.5f)`. -/
def alignRect (from_intrin other_intrin : Intrinsics) (e : Extrinsics)
    (depth : ℚ) (fx fy : Int) : Int × Int × Int × Int :=
  let p0 := rs2_project_point_to_pixel other_intrin
    (rs2_transform_point_to_point e
      (rs2_deproject_pixel_to_point from_intrin
        ((fx : ℚ) - 1/2, (fy : ℚ) - 1/2) depth))
  let x0 := ftrunc (p0.1 + 1/2)
  let y0 := ftrunc (p0.2 + 1/2)
  let p1 := rs2_project_point_to_pixel other_intrin
    (rs2_transform_point_to_point e
      (rs2_deproject_pixel_to_point from_intrin
        ((fx : ℚ) + 1/2, (fy : ℚ) + 1/2) depth))
  let x1 := ftrunc (p1.1 + 1/2)
  let y1 := ftrunc (p1.2 + 1/2)
  (x0, y0, x1, y1)

/-- Value stored by `alignFrame` into the target buffer: the raw source
sample times `depth_units / meter_to_mm`, converted to `uint16`. -/
def alignValue (raw : Nat) (depth_units : ℚ) : Nat :=
  (ftrunc ((raw : ℚ) * (depth_units / (1/1000)))).toNat % 65536

/-- Inner double loop of `alignFrame`: overwrite every target pixel of
the rectangle `[x0, x1] × [y0, y1]` (row-major, target width `w`) with
the value `v`. -/
def writeRect (w : Int) (x0 y0 x1 y1 : Int) (v : Nat)
    (buf : Nat → Nat) : Nat → Nat :=
  (intRange y0 y1).foldl (fun b yy =>
    (intRange x0 x1).foldl (fun b2 xx =>
      Function.update b2 ((yy * w + xx).toNat) v) b) buf

/-- Body of `alignFrame` for one source pixel `(fx, fy)`: skip when the
depth value is zero, skip when the projected rectangle leaves the target
resolution, otherwise splat the rescaled depth over the rectangle. -/
def processPixel (from_intrin other_intrin : Intrinsics)
    (img : Nat → Nat) (depth_units : ℚ) (e : Extrinsics)
    (buf : Nat → Nat) (fx fy : Int) : Nat → Nat :=
  let raw := img ((fy * from_intrin.width + fx).toNat)
  let depth := depth_units * (raw : ℚ)
  if depth = 0 then buf
  else
    let r := alignRect from_intrin other_intrin e depth fx fy
    if r.1 < 0 ∨ r.2.1 < 0 ∨ other_intrin.width ≤ r.2.2.1 ∨
        other_intrin.height ≤ r.2.2.2 then buf
    else writeRect other_intrin.width r.1 r.2.1 r.2.2.1 r.2.2.2
      (alignValue raw depth_units) buf

/-- Model of `RealSenseNode::alignFrame` for a depth source frame: clear
the output buffer to the blank sentinel `0`, then process every source
pixel in row-major order. -/
def alignFrame (from_intrin other_intrin : Intrinsics)
    (img : Nat → Nat) (depth_units : ℚ) (e : Extrinsics) : Nat → Nat :=
  (intRange 0 (from_intrin.height - 1)).foldl (fun buf fy =>
    (intRange 0 (from_intrin.width - 1)).foldl (fun b fx =>
      processPixel from_intrin other_intrin img depth_units e b fx fy) buf)
    (fun _ => 0)

/-! ### ClockSynchronizer: the timestamp logic of `_frame_callback` -/

/-- Clock-mapping state of the node: `_intialize_time_base`,
`_ros_time_base`, `_camera_time_base` and `_prev_camera_time_stamp`. -/
structure ClockState where
  initialized : Bool
  rosTimeBase : ℚ
  cameraTimeBase : ℚ
  prevCameraTimeStamp : ℚ
deriving Repr, DecidableEq

/-- State after the constructor: `_intialize_time_base = false` and
`_prev_camera_time_stamp = 0` (base fields not yet meaningful). -/
def initialClockState : ClockState := ⟨false, 0, 0, 0⟩

/-- One execution of the timestamp block of `_frame_callback`: `now` is
`ros::Time::now()` captured at this call, `d` the frame's device
timestamp in milliseconds.  Returns the updated state and the stamp `t`
assigned to the frame. -/
def clockStep (useRosTime : Bool) (st : ClockState) (now d : ℚ) :
    ClockState × ℚ :=
  let st1 := if st.initialized = false ∨ d < st.prevCameraTimeStamp then
      { initialized := true, rosTimeBase := now, cameraTimeBase := d,
        prevCameraTimeStamp := st.prevCameraTimeStamp }
    else st
  let st2 := { st1 with prevCameraTimeStamp := d }
  let t := if useRosTime then now
    else st2.rosTimeBase + (d - st2.cameraTimeBase) / 1000
  (st2, t)

/-- Run the clock mapping over a list of `(now, deviceTimestamp)` pairs,
collecting the assigned stamps. -/
def runClock (useRosTime : Bool) : ClockState → List (ℚ × ℚ) → List ℚ
  | _, [] => []
  | st, (now, d) :: rest =>
    let s := clockStep useRosTime st now d
    s.2 :: runClock useRosTime s.1 rest

/-! ### PointCloudBuilder -/

/-- Scaled metric depth of one pixel: raw `uint16` sample times the
depth scale `_depth_scale_meters`. -/
def scaledDepthAt (s : ℚ) (raw : Nat) : ℚ := (raw : ℚ) * s

/-- Per-pixel body of `publishDepthPCTopic`: deproject the pixel at its
scaled depth and zero the point when its depth coordinate is `≤ 0`. -/
def depthCloudPixel (di : Intrinsics) (s : ℚ) (raw : Nat)
    (x y : Int) : Vec3 :=
  let dp := rs2_deproject_pixel_to_point di ((x : ℚ), (y : ℚ))
    (scaledDepthAt s raw)
  if dp.z ≤ 0 then ⟨0, 0, 0⟩ else dp

/-- Full depth-only cloud of `publishDepthPCTopic`: dense row-major
traversal of the depth image (flat pixel index `y * width + x`). -/
def depthCloud (di : Intrinsics) (s : ℚ) (img : Nat → Nat) : List Vec3 :=
  (intRange 0 (di.height - 1)).flatMap (fun y =>
    (intRange 0 (di.width - 1)).map (fun x =>
      depthCloudPixel di s (img ((y * di.width + x).toNat)) x y))

/-- Depth point of the color-fused cloud (`publishRgbToDepthPCTopic`):
deproject at the scaled depth and zero the point when its depth
coordinate is `≤ 0` or exceeds 5 meters. -/
def clippedDepthPoint (di : Intrinsics) (s : ℚ) (raw : Nat)
    (x y : Int) : Vec3 :=
  let dp := rs2_deproject_pixel_to_point di ((x : ℚ), (y : ℚ))
    (scaledDepthAt s raw)
  if dp.z ≤ 0 ∨ 5 < dp.z then ⟨0, 0, 0⟩ else dp

/-- Color-pixel coordinate assigned to one depth pixel: transform the
(possibly zeroed) point through the depth→color extrinsics and project
into the color camera. -/
def colorPixelFor (di ci : Intrinsics) (e : Extrinsics) (s : ℚ)
    (raw : Nat) (x y : Int) : ℚ × ℚ :=
  rs2_project_point_to_pixel ci
    (rs2_transform_point_to_point e (clippedDepthPoint di s raw x y))

/-- Out-of-bounds test of `publishRgbToDepthPCTopic` on a projected
color-pixel coordinate, in the order written in the source. -/
def colorOOB (ci : Intrinsics) (cpix : ℚ × ℚ) : Prop :=
  cpix.2 < 0 ∨ (ci.height : ℚ) ≤ cpix.2 ∨ cpix.1 < 0 ∨
    (ci.width : ℚ) ≤ cpix.1

instance (ci : Intrinsics) (cpix : ℚ × ℚ) : Decidable (colorOOB ci cpix) := by
  unfold colorOOB
  infer_instance

/-- One record of the color-fused cloud: the 3-D point and its RGB
triple. -/
structure RgbPoint where
  p : Vec3
  r : Nat
  g : Nat
  b : Nat
deriving Repr, DecidableEq

/-- Byte offset into the flat RGB8 color buffer for integer color pixel
`(i, j)`: `i * 3 + j * width * 3`. -/
def colorOffset (ci : Intrinsics) (i j : Int) : Nat :=
  (i * 3 + j * ci.width * 3).toNat

/-- Per-pixel body of `publishRgbToDepthPCTopic`: emit the clipped point
and either the out-of-bounds sentinel color `(96, 157, 198)` or the
sample of the color buffer at the truncated projected coordinate. -/
def rgbCloudPixel (di ci : Intrinsics) (e : Extrinsics) (s : ℚ)
    (cdata : Nat → Nat) (raw : Nat) (x y : Int) : RgbPoint :=
  let dp := clippedDepthPoint di s raw x y
  let cpix := colorPixelFor di ci e s raw x y
  if colorOOB ci cpix then ⟨dp, 96, 157, 198⟩
  else
    let i := ftrunc cpix.1
    let j := ftrunc cpix.2
    let off := colorOffset ci i j
    ⟨dp, cdata off, cdata (off + 1), cdata (off + 2)⟩

/-- Full color-fused cloud of `publishRgbToDepthPCTopic`, same dense
row-major traversal as the depth-only cloud. -/
def rgbCloud (di ci : Intrinsics) (e : Extrinsics) (s : ℚ)
    (img cdata : Nat → Nat) : List RgbPoint :=
  (intRange 0 (di.height - 1)).flatMap (fun y =>
    (intRange 0 (di.width - 1)).map (fun x =>
      rgbCloudPixel di ci e s cdata (img ((y * di.width + x).toNat)) x y))

/-- Spec-side notion used by the claim about color sampling: the nearest
integer to a rational coordinate (round half up).  The source instead
truncates via `static_cast<int>`; the two are compared below. -/
def specNearest (q : ℚ) : Int := ⌊q + 1/2⌋

/-! ### FrameArrivalTracker gating of the point-cloud publishers -/

/-- Stream modality (`rs2_stream` values used by the node). -/
inductive StreamType
  | depth
  | color
  | infra1
  | infra2
  | fisheye
  | gyro
  | accel
deriving Repr, DecidableEq

/-- Stream key (`stream_index_pair`): modality plus stream index. -/
abbrev StreamKey := StreamType × Nat

/-- The node's `DEPTH` stream key. -/
def DEPTH : StreamKey := (StreamType.depth, 0)

/-- The node's `COLOR` stream key. -/
def COLOR : StreamKey := (StreamType.color, 0)

/-- Arrival map of one dispatch: `none` models a key that is not
configured (where `std::map::at` throws `std::out_of_range`). -/
abbrev ArrivalMap := StreamKey → Option Bool

/-- Gate of `publishDepthPCTopic`: skip (publish nothing, `none`) when
the depth key is unconfigured or the depth frame did not arrive in this
dispatch; otherwise build and publish the depth-only cloud. -/
def publishDepthPCTopic (arr : ArrivalMap) (di : Intrinsics) (s : ℚ)
    (img : Nat → Nat) : Option (List Vec3) :=
  match arr DEPTH with
  | none => none
  | some arrived => if arrived then some (depthCloud di s img) else none

/-- Gate of `publishRgbToDepthPCTopic`: skip when the color or depth key
is unconfigured or either frame did not arrive in this dispatch;
otherwise build and publish the color-fused cloud. -/
def publishRgbToDepthPCTopic (arr : ArrivalMap) (di ci : Intrinsics)
    (e : Extrinsics) (s : ℚ) (img cdata : Nat → Nat) :
    Option (List RgbPoint) :=
  match arr COLOR, arr DEPTH with
  | some cArr, some dArr =>
    if cArr ∧ dArr then some (rgbCloud di ci e s img cdata) else none
  | _, _ => none

/-! ### FilterChain: `RealSenseNode::filterFrame` -/

/-- One post-processing stage (`filter_options`): a name, an enabled
flag and the frame transform it applies. -/
structure FilterOption (α : Type) where
  filter_name : String
  is_enabled : Bool
  process : α → α

/-- Model of `RealSenseNode::filterFrame`: fold the stages over the
working frame, applying each enabled stage's transform. -/
def filterFrame {α : Type} (filters : List (FilterOption α)) (f : α) : α :=
  filters.foldl (fun fr flt => if flt.is_enabled then flt.process fr else fr) f

/-! ### HealthWatchdog

Modelled from the `ros::Timer` calls of the source:
`setHealthTimers` creates the timer with
`createTimer(depth_callback_timeout_, reset_this, false, !_dev)` — the
`autostart` argument is `!_dev`, so the timer is started at creation
exactly when no device is attached; `setupStreams` (reached from the
constructor only when a device is attached) calls
`depth_callback_timer_.start()` after starting the sensors; every frame
callback runs `setPeriod(depth_callback_timeout_, true)`, resetting the
deadline to `now + timeout`; on expiry the timer callback calls
`resetNode()`, which destroys and reconstructs the node in place. -/

/-- Watchdog timer state: whether the timer is started and its current
deadline. -/
structure WatchdogState where
  active : Bool
  deadline : ℚ
deriving Repr, DecidableEq

/-- Timer state after `setHealthTimers`: `autostart = !_dev`. -/
def watchdogInit (dev : Bool) (now timeout : ℚ) : WatchdogState :=
  ⟨!dev, now + timeout⟩

/-- Effect of `depth_callback_timer_.start()`. -/
def watchdogStart (now timeout : ℚ) : WatchdogState :=
  ⟨true, now + timeout⟩

/-- Watchdog state at the end of node construction: `setHealthTimers`,
then — only when a device is attached — `publishTopics → setupStreams`
starts the streams and the timer. -/
def nodeConstruct (dev : Bool) (now timeout : ℚ) : WatchdogState :=
  let st := watchdogInit dev now timeout
  if dev then watchdogStart now timeout else st

/-- Effect of one frame dispatch on the timer:
`setPeriod(depth_callback_timeout_, true)` re-arms the deadline to
`now + timeout`. -/
def watchdogDispatch (st : WatchdogState) (now timeout : ℚ) :
    WatchdogState :=
  { st with deadline := now + timeout }

/-- Deadline check at host time `now`: when the timer is active and the
deadline has passed, the callback fires `resetNode()` — the node is
reconstructed in place (yielding `nodeConstruct`) and exactly one
reconstruction is counted; otherwise nothing happens. -/
def watchdogExpire (st : WatchdogState) (dev : Bool) (now timeout : ℚ) :
    WatchdogState × Nat :=
  if st.active ∧ st.deadline ≤ now then (nodeConstruct dev now timeout, 1)
  else (st, 0)

/-! ### Concrete example inputs used by the witnesses -/

/-- Example 4×4 intrinsics with unit focal lengths and centered
principal point. -/
def exIntrin : Intrinsics := ⟨4, 4, 2, 2, 1, 1⟩

/-- Example 4×4 target intrinsics with small focal lengths, chosen so a
source pixel projects to a 1×1 target rectangle. -/
def exTargetIntrin : Intrinsics := ⟨4, 4, 2, 2, 1/4, 1/4⟩

/-- Example color intrinsics whose principal point is at `x = 9/10`, so
the projected color pixel of the image center has fractional part
`0.9`. -/
def exShiftIntrin : Intrinsics := ⟨4, 4, 9/10, 2, 1, 1⟩

/-- Example source depth image: raw value `100` at pixel `(2, 2)` of a
4-wide frame, zero elsewhere. -/
def exImg : Nat → Nat := fun i => if i = 10 then 100 else 0

/-- Example color buffer where every byte equals its offset modulo
256 — distinct on all offsets relevant to the witnesses. -/
def exColorData : Nat → Nat := fun n => n % 256

/-- Example extrinsics: identity rotation, translation `(0, 0, 1)`. -/
def exPushExtrinsics : Extrinsics := ⟨1, 0, 0, 0, 1, 0, 0, 0, 1, 0, 0, 1⟩

/-- Example extrinsics: identity rotation, translation `(10, 0, 1)` —
pushes points far off the color image to the right. -/
def exFarExtrinsics : Extrinsics := ⟨1, 0, 0, 0, 1, 0, 0, 0, 1, 10, 0, 1⟩

/-- Example filter list: the four stages built by the constructor
(depth→disparity, spatial, temporal, disparity→depth), all disabled as
the constructor leaves them, with arbitrary distinct transforms. -/
def exFilters : List (FilterOption Nat) :=
  [⟨"Depth_to_Disparity", false, fun n => n + 1⟩,
   ⟨"Spatial", false, fun n => n * 2⟩,
   ⟨"Temporal", false, fun n => n + 7⟩,
   ⟨"Disparity_to_Depth", false, fun n => n * 3⟩]

/-- Example arrival map: depth configured but not arrived, color
unconfigured. -/
def exArrival : ArrivalMap := fun k => if k = DEPTH then some false else none

/-! ### Supporting lemmas -/

/-- Membership in an inclusive integer range. -/
theorem mem_intRange {a b z : Int} : z ∈ intRange a b ↔ a ≤ z ∧ z ≤ b := by
  unfold intRange
  simp only [List.mem_map, List.mem_range]
  constructor
  · rintro ⟨i, hi, rfl⟩
    omega
  · rintro ⟨h1, h2⟩
    exact ⟨(z - a).toNat, by omega, by omega⟩

/-- A fold whose step never changes the accumulator is the identity. -/
theorem foldl_fixed {α β : Type} (f : β → α → β) (l : List α) (b : β)
    (h : ∀ x a, f x a = x) : l.foldl f b = b := by
  induction l generalizing b with
  | nil => rfl
  | cons a l ih =>
    rw [List.foldl_cons, h]
    exact ih b

/-- Folding a step that pointwise overwrites with `v` under a predicate
computes the pointwise union of the overwrites. -/
theorem foldl_pointwise {β : Type} (P : Int → β → Prop)
    [∀ i x, Decidable (P i x)] (v : Nat)
    (step : (β → Nat) → Int → (β → Nat))
    (hstep : ∀ b i idx, step b i idx = if P i idx then v else b idx)
    (l : List Int) (buf : β → Nat) (idx : β) :
    (l.foldl step buf) idx = if ∃ i ∈ l, P i idx then v else buf idx := by
  induction l generalizing buf with
  | nil => simp
  | cons a l ih =>
    rw [List.foldl_cons, ih]
    by_cases hl : ∃ i ∈ l, P i idx
    · rw [if_pos hl, if_pos]
      obtain ⟨i, hi, hp⟩ := hl
      exact ⟨i, List.mem_cons_of_mem a hi, hp⟩
    · rw [if_neg hl, hstep]
      by_cases ha : P a idx
      · rw [if_pos ha, if_pos ⟨a, List.mem_cons_self a l, ha⟩]
      · rw [if_neg ha, if_neg]
        rintro ⟨i, hi, hp⟩
        rcases List.mem_cons.mp hi with rfl | hi2
        · exact ha hp
        · exact hl ⟨i, hi2, hp⟩

/-- Pointwise description of the rectangle splat of `alignFrame`:
a flat index receives `v` exactly when some rectangle cell maps to it. -/
theorem writeRect_apply (w x0 y0 x1 y1 : Int) (v : Nat) (buf : Nat → Nat)
    (idx : Nat) :
    writeRect w x0 y0 x1 y1 v buf idx =
      if ∃ yy ∈ intRange y0 y1, ∃ xx ∈ intRange x0 x1,
          idx = (yy * w + xx).toNat then v else buf idx := by
  unfold writeRect
  exact foldl_pointwise
    (fun yy i => ∃ xx ∈ intRange x0 x1, i = (yy * w + xx).toNat) v _
    (fun b yy i =>
      foldl_pointwise (fun xx j => j = (yy * w + xx).toNat) v _
        (fun b2 xx j => Function.update_apply b2 _ v j) _ b i)
    _ buf idx

/-- An inclusive integer range starting at zero is a mapped `List.range`. -/
theorem intRange_zero (n : Int) :
    intRange 0 (n - 1) = (List.range n.toNat).map (fun (i : Nat) => (i : Int)) := by
  unfold intRange
  have h : n - 1 + 1 - 0 = n := by ring
  rw [h]
  exact List.map_congr_left (fun i _ => by omega)

/-- Length of a dense row-major grid traversal. -/
theorem grid_length {α : Type} (g : Nat → Nat → α) (W H : Nat) :
    ((List.range H).flatMap (fun yn =>
      (List.range W).map (fun xn => g xn yn))).length = H * W := by
  induction H with
  | zero => simp
  | succ H ih =>
    rw [List.range_succ, List.flatMap_append, List.length_append, ih]
    simp [Nat.succ_mul]

/-- Element of a dense row-major grid traversal at flat index
`y * W + x`. -/
theorem grid_get {α : Type} (g : Nat → Nat → α) (W H x y : Nat)
    (hx : x < W) (hy : y < H) :
    ((List.range H).flatMap (fun yn =>
      (List.range W).map (fun xn => g xn yn)))[y * W + x]? =
      some (g x y) := by
  induction H with
  | zero => omega
  | succ H ih =>
    rw [List.range_succ, List.flatMap_append]
    rcases Nat.lt_or_ge y H with h | h
    · have hlen : y * W + x <
          ((List.range H).flatMap (fun yn =>
            (List.range W).map (fun xn => g xn yn))).length := by
        rw [grid_length]
        have h1 : y * W + W ≤ H * W := by
          have h2 := Nat.mul_le_mul_right W (Nat.succ_le_of_lt h)
          rwa [Nat.succ_mul] at h2
        omega
      rw [List.getElem?_append, if_pos hlen]
      exact ih h
    · have hy2 : y = H := by omega
      subst hy2
      rw [List.getElem?_append_right (by rw [grid_length]; omega)]
      rw [grid_length]
      have h2 : y * W + x - y * W = x := by omega
      rw [h2]
      simp [List.getElem?_range hx]

/-- The depth-only cloud as a row-major grid over natural indices. -/
theorem depthCloud_eq_grid (di : Intrinsics) (s : ℚ) (img : Nat → Nat) :
    depthCloud di s img =
      (List.range di.height.toNat).flatMap (fun (yn : Nat) =>
        (List.range di.width.toNat).map (fun (xn : Nat) =>
          depthCloudPixel di s
            (img (((yn : Int) * di.width + (xn : Int)).toNat))
            (xn : Int) (yn : Int))) := by
  unfold depthCloud
  rw [intRange_zero di.height, intRange_zero di.width, List.flatMap_map]
  refine congrArg (List.flatMap (List.range di.height.toNat)) (funext fun yn => ?_)
  rw [List.map_map]
  rfl

/-- Closed form of the clock mapping while the base stays valid: with an
initialized base and non-decreasing device timestamps (starting from the
previously seen one), every stamp is the base plus the device offset. -/
theorem runClock_steady (l : List (ℚ × ℚ)) :
    ∀ st : ClockState, st.initialized = true →
    List.Chain' (· ≤ ·) (st.prevCameraTimeStamp :: l.map Prod.snd) →
    runClock false st l =
      l.map (fun p => st.rosTimeBase + (p.2 - st.cameraTimeBase) / 1000) := by
  induction l with
  | nil =>
    intro st _ _
    rfl
  | cons a l ih =>
    rcases a with ⟨n, d⟩
    intro st hinit hchain
    rw [List.map_cons] at hchain
    obtain ⟨hle, hchain2⟩ := List.chain'_cons.mp hchain
    have hcond : ¬ (st.initialized = false ∨ d < st.prevCameraTimeStamp) := by
      simp only [hinit, not_or, not_lt]
      exact ⟨by decide, hle⟩
    have hstep : clockStep false st n d =
        ({ st with prevCameraTimeStamp := d },
          st.rosTimeBase + (d - st.cameraTimeBase) / 1000) := by
      simp [clockStep, hcond]
    show (clockStep false st n d).2 ::
        runClock false (clockStep false st n d).1 l = _
    rw [hstep, List.map_cons]
    exact congrArg _ (ih { st with prevCameraTimeStamp := d } hinit hchain2)

/-- Depth coordinate of a deprojected point is the input depth. -/
theorem deproject_z (intrin : Intrinsics) (pixel : ℚ × ℚ) (depth : ℚ) :
    (rs2_deproject_pixel_to_point intrin pixel depth).z = depth := rfl

/-! ### Claim C2 -/

/-- C2: with the derive-from-device-clock strategy selected
(`_use_ros_time` false), every monotonically non-decreasing sequence of
device timestamps fed to the frame callback yields monotonically
non-decreasing mapped host timestamps, and consecutive host-timestamp
differences equal the corresponding device-timestamp differences
converted from milliseconds to seconds. -/
theorem C2_clock_monotone_same_rate (l : List (ℚ × ℚ))
    (hmono : List.Chain' (· ≤ ·) (l.map Prod.snd)) :
    List.Chain' (· ≤ ·) (runClock false initialClockState l) ∧
    ∀ i : Nat, i + 1 < l.length →
      (runClock false initialClockState l)[i + 1]?.getD 0 -
        (runClock false initialClockState l)[i]?.getD 0 =
      ((l[i + 1]?.getD (0, 0)).2 - (l[i]?.getD (0, 0)).2) / 1000 := by
  rcases l with _ | ⟨⟨n1, d1⟩, rest⟩
  · exact ⟨List.chain'_nil, fun i h => by simp at h⟩
  · have hstep : clockStep false initialClockState n1 d1 =
        (⟨true, n1, d1, d1⟩, n1) := by
      simp [clockStep, initialClockState]
    have hrun : runClock false initialClockState ((n1, d1) :: rest) =
        ((n1, d1) :: rest).map (fun p => n1 + (p.2 - d1) / 1000) := by
      show (clockStep false initialClockState n1 d1).2 ::
          runClock false (clockStep false initialClockState n1 d1).1 rest = _
      rw [hstep, List.map_cons]
      have htail := runClock_steady rest ⟨true, n1, d1, d1⟩ rfl
        (by simpa using hmono)
      rw [htail]
      have hhead : n1 = n1 + (d1 - d1) / 1000 := by ring
      exact congrArg₂ _ hhead rfl
    constructor
    · rw [hrun, List.chain'_map]
      have h2 := (List.chain'_map Prod.snd).mp hmono
      exact h2.imp (fun a b hab => by linarith)
    · intro i hi
      have hi0 : i < ((n1, d1) :: rest).length := by omega
      rw [hrun, List.getElem?_map, List.getElem?_map,
        List.getElem?_eq_getElem hi, List.getElem?_eq_getElem hi0]
      simp only [Option.map_some', Option.getD_some]
      ring

/-- Witness for C2 at the concrete input `[(1, 10), (2, 30)]`. -/
theorem C2_witness :
    List.Chain' (· ≤ ·)
      (runClock false initialClockState [((1 : ℚ), (10 : ℚ)), (2, 30)]) ∧
    (runClock false initialClockState [((1 : ℚ), (10 : ℚ)), (2, 30)])[1]?.getD 0 -
      (runClock false initialClockState [((1 : ℚ), (10 : ℚ)), (2, 30)])[0]?.getD 0 =
      ((([((1 : ℚ), (10 : ℚ)), (2, 30)])[1]?.getD (0, 0)).2 -
        (([((1 : ℚ), (10 : ℚ)), (2, 30)])[0]?.getD (0, 0)).2) / 1000 := by
  have h := C2_clock_monotone_same_rate [((1 : ℚ), (10 : ℚ)), (2, 30)]
    (by norm_num [List.chain'_cons])
  exact ⟨h.1, h.2 0 (by decide)⟩

/-! ### Claim C3 -/

/-- C3: a frame whose device timestamp is strictly below the previously
seen one re-initializes the clock base: that frame is stamped with the
host "now" captured at the call, and every subsequent frame (with
non-decreasing device timestamps) is stamped as the new host base plus
the device offset from the new device base. -/
theorem C3_rebase_on_backwards_timestamp (st : ClockState) (now d : ℚ)
    (hlt : d < st.prevCameraTimeStamp) (l : List (ℚ × ℚ))
    (hchain : List.Chain' (· ≤ ·) (d :: l.map Prod.snd)) :
    (clockStep false st now d).2 = now ∧
    runClock false (clockStep false st now d).1 l =
      l.map (fun p => now + (p.2 - d) / 1000) := by
  have hstep : clockStep false st now d = (⟨true, now, d, d⟩, now) := by
    simp [clockStep, hlt]
  constructor
  · rw [hstep]
  · rw [hstep]
    exact runClock_steady l ⟨true, now, d, d⟩ rfl hchain

/-- Witness for C3: device timestamp `3` after a previous `5`. -/
theorem C3_witness :
    (clockStep false ⟨true, 10, 0, 5⟩ 100 3).2 = 100 ∧
    runClock false (clockStep false ⟨true, 10, 0, 5⟩ 100 3).1
        [((7 : ℚ), (3 : ℚ)), (8, 7)] =
      [((7 : ℚ), (3 : ℚ)), (8, 7)].map (fun p => 100 + (p.2 - 3) / 1000) :=
  C3_rebase_on_backwards_timestamp ⟨true, 10, 0, 5⟩ 100 3 (by norm_num)
    [((7 : ℚ), (3 : ℚ)), (8, 7)] (by norm_num [List.chain'_cons])

/-! ### Claim C4 -/

/-- C4: in the color-fused cloud, a pixel whose deprojected depth
coordinate is ≤ 0 or exceeds 5 meters yields the zero vector regardless
of where it would map in the color image; a projected color-pixel
coordinate outside the color frame bounds receives exactly the color
(96, 157, 198); and the 5-meter clipping is absent from the depth-only
variant, which keeps such points. -/
theorem C4_range_clip_and_sentinel (di ci : Intrinsics) (e : Extrinsics)
    (s : ℚ) (cdata : Nat → Nat) (raw : Nat) (x y : Int) :
    (((rs2_deproject_pixel_to_point di ((x : ℚ), (y : ℚ)) (scaledDepthAt s raw)).z ≤ 0 ∨
        5 < (rs2_deproject_pixel_to_point di ((x : ℚ), (y : ℚ)) (scaledDepthAt s raw)).z) →
      (rgbCloudPixel di ci e s cdata raw x y).p = ⟨0, 0, 0⟩) ∧
    (colorOOB ci (colorPixelFor di ci e s raw x y) →
      (rgbCloudPixel di ci e s cdata raw x y).r = 96 ∧
      (rgbCloudPixel di ci e s cdata raw x y).g = 157 ∧
      (rgbCloudPixel di ci e s cdata raw x y).b = 198) ∧
    (5 < scaledDepthAt s raw →
      depthCloudPixel di s raw x y =
        rs2_deproject_pixel_to_point di ((x : ℚ), (y : ℚ)) (scaledDepthAt s raw)) := by
  refine ⟨?_, ?_, ?_⟩
  · intro hz
    have hp : (rgbCloudPixel di ci e s cdata raw x y).p =
        clippedDepthPoint di s raw x y := by
      simp only [rgbCloudPixel]
      split <;> rfl
    rw [hp]
    simp only [clippedDepthPoint]
    rw [if_pos hz]
  · intro hoob
    simp only [rgbCloudPixel]
    rw [if_pos hoob]
    exact ⟨rfl, rfl, rfl⟩
  · intro h5
    simp only [depthCloudPixel]
    rw [if_neg (by rw [deproject_z]; linarith)]

/-- Witness for C4: raw depth 6000 at scale 1/1000 gives 6 m > 5 m, so
the point is zeroed; translation (10, 0, 1) projects outside the 4×4
color frame, so the sentinel color is assigned. -/
theorem C4_witness :
    (rgbCloudPixel exIntrin exIntrin exFarExtrinsics (1/1000) exColorData
      6000 2 2).p = ⟨0, 0, 0⟩ ∧
    (rgbCloudPixel exIntrin exIntrin exFarExtrinsics (1/1000) exColorData
      6000 2 2).r = 96 ∧
    depthCloudPixel exIntrin (1/1000) 6000 2 2 =
      rs2_deproject_pixel_to_point exIntrin ((2 : ℚ), (2 : ℚ))
        (scaledDepthAt (1/1000) 6000) := by
  have h := C4_range_clip_and_sentinel exIntrin exIntrin exFarExtrinsics
    (1/1000) exColorData 6000 2 2
  exact ⟨h.1 (by norm_num [colorOOB, colorPixelFor, clippedDepthPoint, rs2_project_point_to_pixel, rs2_transform_point_to_point, rs2_deproject_pixel_to_point, scaledDepthAt, rgbCloudPixel, colorOffset, ftrunc, specNearest, exIntrin, exShiftIntrin, idExtrinsics, exFarExtrinsics, exPushExtrinsics, exColorData]), (h.2.1 (by norm_num [colorOOB, colorPixelFor, clippedDepthPoint, rs2_project_point_to_pixel, rs2_transform_point_to_point, rs2_deproject_pixel_to_point, scaledDepthAt, rgbCloudPixel, colorOffset, ftrunc, specNearest, exIntrin, exShiftIntrin, idExtrinsics, exFarExtrinsics, exPushExtrinsics, exColorData])).1, h.2.2 (by norm_num [colorOOB, colorPixelFor, clippedDepthPoint, rs2_project_point_to_pixel, rs2_transform_point_to_point, rs2_deproject_pixel_to_point, scaledDepthAt, rgbCloudPixel, colorOffset, ftrunc, specNearest, exIntrin, exShiftIntrin, idExtrinsics, exFarExtrinsics, exPushExtrinsics, exColorData])⟩

/-! ### Claim C5 -/

/-- C5 counterexample: at a concrete in-bounds input the projected color
pixel is (9/10, 2); the code samples the truncated pixel (0, 2) while
the nearest integer pixel is (1, 2), whose color differs — so the
assigned color is NOT the sample at the nearest integer pixel as the
claim states. -/
theorem C5_counterexample :
    ¬ colorOOB exShiftIntrin
      (colorPixelFor exIntrin exShiftIntrin idExtrinsics (1/1000) 1000 2 2) ∧
    (rgbCloudPixel exIntrin exShiftIntrin idExtrinsics (1/1000) exColorData
        1000 2 2).r ≠
      exColorData (colorOffset exShiftIntrin
        (specNearest
          (colorPixelFor exIntrin exShiftIntrin idExtrinsics (1/1000) 1000 2 2).1)
        (specNearest
          (colorPixelFor exIntrin exShiftIntrin idExtrinsics (1/1000) 1000 2 2).2)) := by
  constructor
  · norm_num [colorOOB, colorPixelFor, clippedDepthPoint,
      rs2_project_point_to_pixel, rs2_transform_point_to_point,
      rs2_deproject_pixel_to_point, scaledDepthAt, exIntrin, exShiftIntrin,
      idExtrinsics]
  · norm_num [colorOOB, colorPixelFor, clippedDepthPoint,
      rs2_project_point_to_pixel, rs2_transform_point_to_point,
      rs2_deproject_pixel_to_point, scaledDepthAt, rgbCloudPixel,
      colorOffset, ftrunc, specNearest, exIntrin, exShiftIntrin,
      idExtrinsics, exColorData]
    decide

/-- C5 (amended): a point whose projected color-pixel coordinate falls
inside the color frame bounds is assigned the RGB triple sampled from
the color buffer at the integer pixel obtained by truncating the
projected coordinate toward zero (`static_cast<int>`, no interpolation),
which can differ from the nearest integer pixel. -/
theorem C5_in_bounds_color_truncated (di ci : Intrinsics) (e : Extrinsics)
    (s : ℚ) (cdata : Nat → Nat) (raw : Nat) (x y : Int)
    (h : ¬ colorOOB ci (colorPixelFor di ci e s raw x y)) :
    (rgbCloudPixel di ci e s cdata raw x y).r =
      cdata (colorOffset ci (ftrunc (colorPixelFor di ci e s raw x y).1)
        (ftrunc (colorPixelFor di ci e s raw x y).2)) ∧
    (rgbCloudPixel di ci e s cdata raw x y).g =
      cdata (colorOffset ci (ftrunc (colorPixelFor di ci e s raw x y).1)
        (ftrunc (colorPixelFor di ci e s raw x y).2) + 1) ∧
    (rgbCloudPixel di ci e s cdata raw x y).b =
      cdata (colorOffset ci (ftrunc (colorPixelFor di ci e s raw x y).1)
        (ftrunc (colorPixelFor di ci e s raw x y).2) + 2) := by
  simp only [rgbCloudPixel]
  rw [if_neg h]
  exact ⟨rfl, rfl, rfl⟩

/-- Witness for the amended C5 at the counterexample's input. -/
theorem C5_witness :
    (rgbCloudPixel exIntrin exShiftIntrin idExtrinsics (1/1000) exColorData
        1000 2 2).r =
      exColorData (colorOffset exShiftIntrin
        (ftrunc
          (colorPixelFor exIntrin exShiftIntrin idExtrinsics (1/1000) 1000 2 2).1)
        (ftrunc
          (colorPixelFor exIntrin exShiftIntrin idExtrinsics (1/1000) 1000 2 2).2)) ∧
    (rgbCloudPixel exIntrin exShiftIntrin idExtrinsics (1/1000) exColorData
        1000 2 2).g =
      exColorData (colorOffset exShiftIntrin
        (ftrunc
          (colorPixelFor exIntrin exShiftIntrin idExtrinsics (1/1000) 1000 2 2).1)
        (ftrunc
          (colorPixelFor exIntrin exShiftIntrin idExtrinsics (1/1000) 1000 2 2).2) + 1) ∧
    (rgbCloudPixel exIntrin exShiftIntrin idExtrinsics (1/1000) exColorData
        1000 2 2).b =
      exColorData (colorOffset exShiftIntrin
        (ftrunc
          (colorPixelFor exIntrin exShiftIntrin idExtrinsics (1/1000) 1000 2 2).1)
        (ftrunc
          (colorPixelFor exIntrin exShiftIntrin idExtrinsics (1/1000) 1000 2 2).2) + 2) :=
  C5_in_bounds_color_truncated exIntrin exShiftIntrin idExtrinsics (1/1000)
    exColorData 1000 2 2 (by norm_num [colorOOB, colorPixelFor, clippedDepthPoint, rs2_project_point_to_pixel, rs2_transform_point_to_point, rs2_deproject_pixel_to_point, scaledDepthAt, rgbCloudPixel, colorOffset, ftrunc, specNearest, exIntrin, exShiftIntrin, idExtrinsics, exFarExtrinsics, exPushExtrinsics, exColorData])

/-! ### Claim C10 -/

/-- C10: a point zeroed by range clipping (depth ≤ 0 or > 5 m) is still
transformed through the depth→color extrinsics and projected into the
color camera; when the projected origin lands inside the color frame
bounds, the zeroed point receives the color sampled there, not the
out-of-bounds sentinel (96, 157, 198). -/
theorem C10_zeroed_point_still_projected (di ci : Intrinsics)
    (e : Extrinsics) (s : ℚ) (cdata : Nat → Nat) (raw : Nat) (x y : Int)
    (hz : (rs2_deproject_pixel_to_point di ((x : ℚ), (y : ℚ)) (scaledDepthAt s raw)).z ≤ 0 ∨
      5 < (rs2_deproject_pixel_to_point di ((x : ℚ), (y : ℚ)) (scaledDepthAt s raw)).z)
    (hin : ¬ colorOOB ci
      (rs2_project_point_to_pixel ci (rs2_transform_point_to_point e ⟨0, 0, 0⟩))) :
    (rgbCloudPixel di ci e s cdata raw x y).p = ⟨0, 0, 0⟩ ∧
    (rgbCloudPixel di ci e s cdata raw x y).r =
      cdata (colorOffset ci
        (ftrunc (rs2_project_point_to_pixel ci
          (rs2_transform_point_to_point e ⟨0, 0, 0⟩)).1)
        (ftrunc (rs2_project_point_to_pixel ci
          (rs2_transform_point_to_point e ⟨0, 0, 0⟩)).2)) ∧
    (rgbCloudPixel di ci e s cdata raw x y).g =
      cdata (colorOffset ci
        (ftrunc (rs2_project_point_to_pixel ci
          (rs2_transform_point_to_point e ⟨0, 0, 0⟩)).1)
        (ftrunc (rs2_project_point_to_pixel ci
          (rs2_transform_point_to_point e ⟨0, 0, 0⟩)).2) + 1) ∧
    (rgbCloudPixel di ci e s cdata raw x y).b =
      cdata (colorOffset ci
        (ftrunc (rs2_project_point_to_pixel ci
          (rs2_transform_point_to_point e ⟨0, 0, 0⟩)).1)
        (ftrunc (rs2_project_point_to_pixel ci
          (rs2_transform_point_to_point e ⟨0, 0, 0⟩)).2) + 2) := by
  have hclip : clippedDepthPoint di s raw x y = ⟨0, 0, 0⟩ := by
    simp only [clippedDepthPoint]
    rw [if_pos hz]
  have hcp : colorPixelFor di ci e s raw x y =
      rs2_project_point_to_pixel ci (rs2_transform_point_to_point e ⟨0, 0, 0⟩) := by
    unfold colorPixelFor
    rw [hclip]
  simp only [rgbCloudPixel, hcp, hclip]
  rw [if_neg hin]
  exact ⟨rfl, rfl, rfl, rfl⟩

/-- Witness for C10: a 6 m point (clipped to zero) whose projected
origin lands at color pixel (2, 2), receiving the sampled buffer bytes
at offsets 30, 31, 32 rather than the sentinel. -/
theorem C10_witness :
    (rgbCloudPixel exIntrin exIntrin exPushExtrinsics (1/1000) exColorData
        6000 2 2).p = ⟨0, 0, 0⟩ ∧
    (rgbCloudPixel exIntrin exIntrin exPushExtrinsics (1/1000) exColorData
        6000 2 2).r =
      exColorData (colorOffset exIntrin
        (ftrunc (rs2_project_point_to_pixel exIntrin
          (rs2_transform_point_to_point exPushExtrinsics ⟨0, 0, 0⟩)).1)
        (ftrunc (rs2_project_point_to_pixel exIntrin
          (rs2_transform_point_to_point exPushExtrinsics ⟨0, 0, 0⟩)).2)) ∧
    (rgbCloudPixel exIntrin exIntrin exPushExtrinsics (1/1000) exColorData
        6000 2 2).g =
      exColorData (colorOffset exIntrin
        (ftrunc (rs2_project_point_to_pixel exIntrin
          (rs2_transform_point_to_point exPushExtrinsics ⟨0, 0, 0⟩)).1)
        (ftrunc (rs2_project_point_to_pixel exIntrin
          (rs2_transform_point_to_point exPushExtrinsics ⟨0, 0, 0⟩)).2) + 1) ∧
    (rgbCloudPixel exIntrin exIntrin exPushExtrinsics (1/1000) exColorData
        6000 2 2).b =
      exColorData (colorOffset exIntrin
        (ftrunc (rs2_project_point_to_pixel exIntrin
          (rs2_transform_point_to_point exPushExtrinsics ⟨0, 0, 0⟩)).1)
        (ftrunc (rs2_project_point_to_pixel exIntrin
          (rs2_transform_point_to_point exPushExtrinsics ⟨0, 0, 0⟩)).2) + 2) :=
  C10_zeroed_point_still_projected exIntrin exIntrin exPushExtrinsics (1/1000)
    exColorData 6000 2 2 (by norm_num [colorOOB, colorPixelFor, clippedDepthPoint, rs2_project_point_to_pixel, rs2_transform_point_to_point, rs2_deproject_pixel_to_point, scaledDepthAt, rgbCloudPixel, colorOffset, ftrunc, specNearest, exIntrin, exShiftIntrin, idExtrinsics, exFarExtrinsics, exPushExtrinsics, exColorData]) (by norm_num [colorOOB, colorPixelFor, clippedDepthPoint, rs2_project_point_to_pixel, rs2_transform_point_to_point, rs2_deproject_pixel_to_point, scaledDepthAt, rgbCloudPixel, colorOffset, ftrunc, specNearest, exIntrin, exShiftIntrin, idExtrinsics, exFarExtrinsics, exPushExtrinsics, exColorData])

/-! ### Claim C7 -/

/-- C7 counterexample: constructing the node with no device attached
leaves the watchdog timer started, because `setHealthTimers` passes
`autostart = !_dev` to `createTimer` — the claim says it starts
inactive. -/
theorem C7_counterexample : ¬ ((nodeConstruct false 0 10).active = false) := by
  decide

/-- C7 (amended): the watchdog starts ARMED when the node is constructed
with no device attached (`autostart = !_dev`, so expiry retries device
acquisition); with a device attached the timer is created unstarted and
becomes armed when the streams are started during construction.  Every
frame dispatch re-arms the deadline to now + timeout, a dispatch before
the deadline suppresses firing at any time before the new deadline, and
an expiry triggers exactly one full node reconstruction. -/
theorem C7_watchdog_behaviour (dev : Bool) (now timeout q : ℚ)
    (st : WatchdogState) :
    (nodeConstruct false now timeout).active = true ∧
    (watchdogInit true now timeout).active = false ∧
    (nodeConstruct true now timeout).active = true ∧
    (watchdogDispatch st now timeout).deadline = now + timeout ∧
    (st.active = true → q < now + timeout →
      watchdogExpire (watchdogDispatch st now timeout) dev q timeout =
        (watchdogDispatch st now timeout, 0)) ∧
    (st.active = true → st.deadline ≤ now →
      watchdogExpire st dev now timeout = (nodeConstruct dev now timeout, 1)) := by
  refine ⟨rfl, rfl, rfl, rfl, ?_, ?_⟩
  · intro hact hq
    unfold watchdogExpire
    rw [if_neg]
    rintro ⟨h1, h2⟩
    exact absurd h2 (not_le.mpr hq)
  · intro hact hle
    unfold watchdogExpire
    rw [if_pos ⟨hact, hle⟩]

/-- Witness for the amended C7: a dispatch at time 7 with timeout 10
suppresses firing at time 16; an expiry at a passed deadline
reconstructs once. -/
theorem C7_witness :
    watchdogExpire (watchdogDispatch ⟨true, 5⟩ 7 10) false 16 10 =
      (watchdogDispatch ⟨true, 5⟩ 7 10, 0) ∧
    watchdogExpire ⟨true, 5⟩ false 7 10 = (nodeConstruct false 7 10, 1) :=
  ⟨(C7_watchdog_behaviour false 7 10 16 ⟨true, 5⟩).2.2.2.2.1 rfl (by norm_num),
    (C7_watchdog_behaviour false 7 10 16 ⟨true, 5⟩).2.2.2.2.2 rfl (by norm_num)⟩

/-! ### Claim C8 -/

/-- C8: a dispatch in which the depth stream (or, for the color-fused
cloud, the depth or color stream) is not marked arrived in the
per-dispatch arrival map — including an unconfigured stream key — makes
the corresponding point-cloud publisher a silent no-op: it publishes
nothing (`none`). -/
theorem C8_missing_stream_skips (arr : ArrivalMap) (di ci : Intrinsics)
    (e : Extrinsics) (s : ℚ) (img cdata : Nat → Nat) :
    (arr DEPTH ≠ some true → publishDepthPCTopic arr di s img = none) ∧
    (arr DEPTH ≠ some true ∨ arr COLOR ≠ some true →
      publishRgbToDepthPCTopic arr di ci e s img cdata = none) := by
  constructor
  · intro h
    unfold publishDepthPCTopic
    cases hd : arr DEPTH with
    | none => rfl
    | some b =>
      cases b with
      | false => rfl
      | true => exact absurd hd h
  · intro h
    unfold publishRgbToDepthPCTopic
    cases hc : arr COLOR with
    | none => rfl
    | some cArr =>
      cases hd : arr DEPTH with
      | none => rfl
      | some dArr =>
        show (if cArr = true ∧ dArr = true then
          some (rgbCloud di ci e s img cdata) else none) = none
        rw [if_neg]
        rintro ⟨h1, h2⟩
        rcases h with h | h
        · rw [hd, h2] at h
          exact h rfl
        · rw [hc, h1] at h
          exact h rfl

/-- Witness for C8: depth configured but not arrived, color
unconfigured — both publishers are silent no-ops. -/
theorem C8_witness :
    publishDepthPCTopic exArrival exIntrin (1/1000) exImg = none ∧
    publishRgbToDepthPCTopic exArrival exIntrin exIntrin idExtrinsics
      (1/1000) exImg exColorData = none :=
  ⟨(C8_missing_stream_skips exArrival exIntrin exIntrin idExtrinsics (1/1000)
      exImg exColorData).1 (by decide),
    (C8_missing_stream_skips exArrival exIntrin exIntrin idExtrinsics (1/1000)
      exImg exColorData).2 (Or.inl (by decide))⟩

/-! ### Claim C9 -/

/-- C9: when every stage's enabled flag is false, the filter chain
returns the frame unchanged — each disabled stage is a no-op, so the
whole chain is the identity function. -/
theorem C9_all_disabled_identity {α : Type} (filters : List (FilterOption α))
    (f : α) (h : ∀ flt ∈ filters, flt.is_enabled = false) :
    filterFrame filters f = f := by
  induction filters generalizing f with
  | nil => rfl
  | cons a l ih =>
    have ha : a.is_enabled = false := h a (List.mem_cons_self a l)
    unfold filterFrame
    rw [List.foldl_cons, if_neg (by simp [ha])]
    exact ih f (fun flt hf => h flt (List.mem_cons_of_mem a hf))

/-- Witness for C9: the constructor's four stages, all disabled, leave a
frame unchanged. -/
theorem C9_witness : filterFrame exFilters 5 = 5 :=
  C9_all_disabled_identity exFilters 5 (by
    intro flt hf
    fin_cases hf <;> rfl)

/-! ### Claim C1 -/

/-- C1: write-set of the reprojector `alignFrame`: a source pixel with
zero raw depth writes nothing (so an entirely-zero source frame leaves
the output buffer equal to the cleared sentinel everywhere); a pixel
whose projected bounding rectangle falls even partly outside the target
resolution writes nothing (no clamping); otherwise exactly the target
pixels inside the rectangle are overwritten with the source depth
re-scaled to the target's unit — in particular a 1×1 in-bounds rectangle
writes exactly one target pixel. -/
theorem C1_reprojector_write_set (fi oi : Intrinsics) (img : Nat → Nat)
    (units : ℚ) (e : Extrinsics) :
    (∀ (buf : Nat → Nat) (fx fy : Int),
      img ((fy * fi.width + fx).toNat) = 0 →
      processPixel fi oi img units e buf fx fy = buf) ∧
    ((∀ i, img i = 0) → alignFrame fi oi img units e = fun _ => 0) ∧
    (∀ (buf : Nat → Nat) (fx fy : Int),
      ((alignRect fi oi e (units * (img ((fy * fi.width + fx).toNat) : ℚ)) fx fy).1 < 0 ∨
        (alignRect fi oi e (units * (img ((fy * fi.width + fx).toNat) : ℚ)) fx fy).2.1 < 0 ∨
        oi.width ≤ (alignRect fi oi e (units * (img ((fy * fi.width + fx).toNat) : ℚ)) fx fy).2.2.1 ∨
        oi.height ≤ (alignRect fi oi e (units * (img ((fy * fi.width + fx).toNat) : ℚ)) fx fy).2.2.2) →
      processPixel fi oi img units e buf fx fy = buf) ∧
    (∀ (buf : Nat → Nat) (fx fy x0 y0 x1 y1 : Int),
      units * (img ((fy * fi.width + fx).toNat) : ℚ) ≠ 0 →
      alignRect fi oi e (units * (img ((fy * fi.width + fx).toNat) : ℚ)) fx fy =
        (x0, y0, x1, y1) →
      0 ≤ x0 → 0 ≤ y0 → x1 < oi.width → y1 < oi.height →
      ∀ idx : Nat, processPixel fi oi img units e buf fx fy idx =
        if ∃ yy ∈ intRange y0 y1, ∃ xx ∈ intRange x0 x1,
            idx = (yy * oi.width + xx).toNat
        then alignValue (img ((fy * fi.width + fx).toNat)) units
        else buf idx) ∧
    (∀ (buf : Nat → Nat) (fx fy x0 y0 : Int),
      units * (img ((fy * fi.width + fx).toNat) : ℚ) ≠ 0 →
      alignRect fi oi e (units * (img ((fy * fi.width + fx).toNat) : ℚ)) fx fy =
        (x0, y0, x0, y0) →
      0 ≤ x0 → 0 ≤ y0 → x0 < oi.width → y0 < oi.height →
      processPixel fi oi img units e buf fx fy ((y0 * oi.width + x0).toNat) =
        alignValue (img ((fy * fi.width + fx).toNat)) units ∧
      ∀ idx : Nat, idx ≠ (y0 * oi.width + x0).toNat →
        processPixel fi oi img units e buf fx fy idx = buf idx) := by
  have h1 : ∀ (buf : Nat → Nat) (fx fy : Int),
      img ((fy * fi.width + fx).toNat) = 0 →
      processPixel fi oi img units e buf fx fy = buf := by
    intro buf fx fy h
    simp [processPixel, h]
  have h3 : ∀ (buf : Nat → Nat) (fx fy : Int),
      ((alignRect fi oi e (units * (img ((fy * fi.width + fx).toNat) : ℚ)) fx fy).1 < 0 ∨
        (alignRect fi oi e (units * (img ((fy * fi.width + fx).toNat) : ℚ)) fx fy).2.1 < 0 ∨
        oi.width ≤ (alignRect fi oi e (units * (img ((fy * fi.width + fx).toNat) : ℚ)) fx fy).2.2.1 ∨
        oi.height ≤ (alignRect fi oi e (units * (img ((fy * fi.width + fx).toNat) : ℚ)) fx fy).2.2.2) →
      processPixel fi oi img units e buf fx fy = buf := by
    intro buf fx fy hcond
    simp only [processPixel]
    by_cases hd : units * (img ((fy * fi.width + fx).toNat) : ℚ) = 0
    · rw [if_pos hd]
    · rw [if_neg hd, if_pos hcond]
  have h4 : ∀ (buf : Nat → Nat) (fx fy x0 y0 x1 y1 : Int),
      units * (img ((fy * fi.width + fx).toNat) : ℚ) ≠ 0 →
      alignRect fi oi e (units * (img ((fy * fi.width + fx).toNat) : ℚ)) fx fy =
        (x0, y0, x1, y1) →
      0 ≤ x0 → 0 ≤ y0 → x1 < oi.width → y1 < oi.height →
      ∀ idx : Nat, processPixel fi oi img units e buf fx fy idx =
        if ∃ yy ∈ intRange y0 y1, ∃ xx ∈ intRange x0 x1,
            idx = (yy * oi.width + xx).toNat
        then alignValue (img ((fy * fi.width + fx).toNat)) units
        else buf idx := by
    intro buf fx fy x0 y0 x1 y1 hd hr hx0 hy0 hx1 hy1 idx
    simp only [processPixel]
    rw [if_neg hd, hr]
    have hguard : ¬(((x0, y0, x1, y1) : Int × Int × Int × Int).1 < 0 ∨
        ((x0, y0, x1, y1) : Int × Int × Int × Int).2.1 < 0 ∨
        oi.width ≤ ((x0, y0, x1, y1) : Int × Int × Int × Int).2.2.1 ∨
        oi.height ≤ ((x0, y0, x1, y1) : Int × Int × Int × Int).2.2.2) := by
      dsimp only
      omega
    rw [if_neg hguard]
    exact writeRect_apply oi.width x0 y0 x1 y1 _ buf idx
  refine ⟨h1, ?_, h3, h4, ?_⟩
  · intro hall
    unfold alignFrame
    apply foldl_fixed
    intro buf fy
    apply foldl_fixed
    intro b fx
    exact h1 b fx fy (hall _)
  · intro buf fx fy x0 y0 hd hr hx0 hy0 hxw hyh
    have h := h4 buf fx fy x0 y0 x0 y0 hd hr hx0 hy0 hxw hyh
    constructor
    · rw [h ((y0 * oi.width + x0).toNat), if_pos]
      exact ⟨y0, mem_intRange.mpr ⟨le_refl y0, le_refl y0⟩,
        x0, mem_intRange.mpr ⟨le_refl x0, le_refl x0⟩, rfl⟩
    · intro idx hne
      rw [h idx, if_neg]
      rintro ⟨yy, hyy, xx, hxx, hidx⟩
      rw [mem_intRange] at hyy hxx
      have hyy2 : yy = y0 := by omega
      have hxx2 : xx = x0 := by omega
      subst hyy2
      subst hxx2
      exact hne hidx

/-- Witness for C1: an all-zero 4×4 source frame leaves the sentinel;
a raw depth 100 at source pixel (2, 2) projects to the 1×1 in-bounds
rectangle {(2, 2)} of the target, overwriting exactly flat index 10. -/
theorem C1_witness :
    alignFrame exIntrin exTargetIntrin (fun _ => 0) (1/1000) idExtrinsics 5 = 0 ∧
    processPixel exIntrin exTargetIntrin exImg (1/1000) idExtrinsics
      (fun _ => 3) 2 2 10 = alignValue 100 (1/1000) ∧
    processPixel exIntrin exTargetIntrin exImg (1/1000) idExtrinsics
      (fun _ => 3) 2 2 11 = 3 := by
  refine ⟨?_, ?_, ?_⟩
  · exact congrFun ((C1_reprojector_write_set exIntrin exTargetIntrin
      (fun _ => 0) (1/1000) idExtrinsics).2.1 (fun i => rfl)) 5
  · have h := (C1_reprojector_write_set exIntrin exTargetIntrin exImg
      (1/1000) idExtrinsics).2.2.2.2 (fun _ => 3) 2 2 2 2
      (by show (1/1000 : ℚ) * ((100 : ℕ) : ℚ) ≠ 0; norm_num)
      (by show alignRect exIntrin exTargetIntrin idExtrinsics
            ((1/1000) * ((100 : ℕ) : ℚ)) 2 2 = (2, 2, 2, 2)
          norm_num [alignRect, rs2_project_point_to_pixel,
            rs2_transform_point_to_point, rs2_deproject_pixel_to_point,
            ftrunc, exIntrin, exTargetIntrin, idExtrinsics, Prod.mk.injEq])
      (by norm_num) (by norm_num) (by norm_num [exTargetIntrin])
      (by norm_num [exTargetIntrin])
    exact h.1
  · have h := (C1_reprojector_write_set exIntrin exTargetIntrin exImg
      (1/1000) idExtrinsics).2.2.2.2 (fun _ => 3) 2 2 2 2
      (by show (1/1000 : ℚ) * ((100 : ℕ) : ℚ) ≠ 0; norm_num)
      (by show alignRect exIntrin exTargetIntrin idExtrinsics
            ((1/1000) * ((100 : ℕ) : ℚ)) 2 2 = (2, 2, 2, 2)
          norm_num [alignRect, rs2_project_point_to_pixel,
            rs2_transform_point_to_point, rs2_deproject_pixel_to_point,
            ftrunc, exIntrin, exTargetIntrin, idExtrinsics, Prod.mk.injEq])
      (by norm_num) (by norm_num) (by norm_num [exTargetIntrin])
      (by norm_num [exTargetIntrin])
    exact h.2 11 (by decide)

/-! ### Claim C6 -/

/-- C6: the depth-only point cloud is dense and organized: its length is
the depth resolution (height × width), the slot at flat index
`y * width + x` is exactly the point computed from depth pixel `(x, y)`
in row-major order, a pixel with raw depth 0 (or any non-positive
deprojected depth coordinate) yields the zero vector in its slot rather
than being omitted, and a positive scaled depth yields the deprojection
formula's point with strictly positive depth coordinate. -/
theorem C6_depth_cloud_organized (di : Intrinsics) (s : ℚ) (img : Nat → Nat) :
    (depthCloud di s img).length = di.height.toNat * di.width.toNat ∧
    (∀ x y : Nat, x < di.width.toNat → y < di.height.toNat →
      (depthCloud di s img)[y * di.width.toNat + x]? =
        some (depthCloudPixel di s
          (img (((y : Int) * di.width + (x : Int)).toNat)) (x : Int) (y : Int))) ∧
    (∀ x y : Int, depthCloudPixel di s 0 x y = ⟨0, 0, 0⟩) ∧
    (∀ (raw : Nat) (x y : Int), scaledDepthAt s raw ≤ 0 →
      depthCloudPixel di s raw x y = ⟨0, 0, 0⟩) ∧
    (∀ (raw : Nat) (x y : Int), 0 < scaledDepthAt s raw →
      depthCloudPixel di s raw x y =
        rs2_deproject_pixel_to_point di ((x : ℚ), (y : ℚ)) (scaledDepthAt s raw) ∧
      0 < (depthCloudPixel di s raw x y).z) := by
  refine ⟨?_, ?_, ?_, ?_, ?_⟩
  · rw [depthCloud_eq_grid]
    exact grid_length _ _ _
  · intro x y hx hy
    rw [depthCloud_eq_grid]
    exact grid_get _ _ _ x y hx hy
  · intro x y
    simp [depthCloudPixel, scaledDepthAt, rs2_deproject_pixel_to_point]
  · intro raw x y h
    simp only [depthCloudPixel]
    rw [if_pos (by rw [deproject_z]; exact h)]
  · intro raw x y h
    have hz : ¬ ((rs2_deproject_pixel_to_point di ((x : ℚ), (y : ℚ))
        (scaledDepthAt s raw)).z ≤ 0) := by
      rw [deproject_z]
      linarith
    refine ⟨?_, ?_⟩
    · simp only [depthCloudPixel]
      rw [if_neg hz]
    · simp only [depthCloudPixel]
      rw [if_neg hz, deproject_z]
      exact h

/-- Witness for C6 on the 4×4 example frame: 16 slots, slot 10 holds the
point of pixel (2, 2), whose depth coordinate is positive. -/
theorem C6_witness :
    (depthCloud exIntrin (1/1000) exImg).length = 16 ∧
    (depthCloud exIntrin (1/1000) exImg)[10]? =
      some (depthCloudPixel exIntrin (1/1000)
        (exImg (((2 : Int) * exIntrin.width + (2 : Int)).toNat)) 2 2) ∧
    0 < (depthCloudPixel exIntrin (1/1000) 100 2 2).z := by
  have h := C6_depth_cloud_organized exIntrin (1/1000) exImg
  refine ⟨?_, ?_, ?_⟩
  · rw [h.1]
    decide
  · exact h.2.1 2 2 (by decide) (by decide)
  · exact (h.2.2.2.2 100 2 2 (by norm_num [scaledDepthAt])).2

end RealSense
